import Mathlib

/-!
Verification of the layout arithmetic of the `crafting` repository
(`src/patterns/a4_to_a0.py` and `src/patterns/convert_full_a0.py`).

The Python scripts do exact rational arithmetic conceptually (millimetre
constants scaled by `72 / 25.4`); we embed all physical lengths as `ℚ`.
Tile dimensions (`tile_w`, `tile_h`) are read from the input document at
run time, so they stay universally quantified parameters.
-/

namespace Crafting

/-- `MM2PT = 72 / 25.4`: millimetres to PostScript points. -/
def MM2PT : ℚ := 72 / 25.4

/-- A PDF page's media box, with lower-left and upper-right corners.
`a4_to_a0.py` mutates this in place to crop a tile. -/
structure Mediabox where
  llx : ℚ
  lly : ℚ
  urx : ℚ
  ury : ℚ
deriving DecidableEq, Repr

/-- Width of a media box (`mediabox.width` in pypdf). -/
def Mediabox.width (m : Mediabox) : ℚ := m.urx - m.llx

/-- Height of a media box (`mediabox.height` in pypdf). -/
def Mediabox.height (m : Mediabox) : ℚ := m.ury - m.lly

namespace A4ToA0

/-- `A0_W_PT = 841 * MM2PT` from `a4_to_a0.py`. -/
def A0_W_PT : ℚ := 841 * MM2PT

/-- `A0_H_PT = 1189 * MM2PT` from `a4_to_a0.py`. -/
def A0_H_PT : ℚ := 1189 * MM2PT

/-- `ROWS = 6`: the full tiling grid has 6 rows. -/
def ROWS : ℕ := 6

/-- `COLS = 7`: the full tiling grid has 7 columns. -/
def COLS : ℕ := 7

/-- `ROWS_PER_BLOCK = 3`: 3 rows of tiles per A0 sheet. -/
def ROWS_PER_BLOCK : ℕ := 3

/-- `COLS_PER_BLOCK = (4, 3)`: 4 columns on the left sheets, 3 on the right. -/
def COLS_PER_BLOCK : ℕ × ℕ := (4, 3)

/-- `crop_mm = 3.2`. -/
def crop_mm : ℚ := 3.2

/-- `crop_pt = crop_mm * MM2PT`. -/
def crop_pt : ℚ := crop_mm * MM2PT

/-- `padding_mm = 5`. -/
def padding_mm : ℚ := 5

/-- `padding_pt = padding_mm * MM2PT`. -/
def padding_pt : ℚ := padding_mm * MM2PT

/-- `cropped_tile_w = tile_w - 2 * crop_pt`. -/
def cropped_tile_w (tile_w : ℚ) : ℚ := tile_w - 2 * crop_pt

/-- `cropped_tile_h = tile_h - 2 * crop_pt`. -/
def cropped_tile_h (tile_h : ℚ) : ℚ := tile_h - 2 * crop_pt

/-- `effective_width = COLS_PER_BLOCK[0] * tile_w - (COLS_PER_BLOCK[0] - 1) * crop_pt`:
the code's footprint of the left (4-column) block. -/
def effective_width (tile_w : ℚ) : ℚ :=
  (COLS_PER_BLOCK.1 : ℚ) * tile_w - ((COLS_PER_BLOCK.1 : ℚ) - 1) * crop_pt

/-- `effective_height = ROWS_PER_BLOCK * tile_h - (ROWS_PER_BLOCK - 1) * crop_pt`. -/
def effective_height (tile_h : ℚ) : ℚ :=
  (ROWS_PER_BLOCK : ℚ) * tile_h - ((ROWS_PER_BLOCK : ℚ) - 1) * crop_pt

/-- `LEFT_BLOCK_MARGIN_X = padding_pt + (A0_W_PT - effective_width - 2 * padding_pt) / 2`. -/
def LEFT_BLOCK_MARGIN_X (tile_w : ℚ) : ℚ :=
  padding_pt + (A0_W_PT - effective_width tile_w - 2 * padding_pt) / 2

/-- `RIGHT_BLOCK_MARGIN_X = padding_pt`. -/
def RIGHT_BLOCK_MARGIN_X : ℚ := padding_pt

/-- `TOP_BLOCK_MARGIN_Y = padding_pt + (A0_H_PT - effective_height - 2 * padding_pt) / 2`. -/
def TOP_BLOCK_MARGIN_Y (tile_h : ℚ) : ℚ :=
  padding_pt + (A0_H_PT - effective_height tile_h - 2 * padding_pt) / 2

/-- `BOTTOM_BLOCK_MARGIN_Y = padding_pt`. -/
def BOTTOM_BLOCK_MARGIN_Y : ℚ := padding_pt

/-- The writer pre-allocates blank A0 pages with `for _ in range(4)`. -/
def NUM_A0_PAGES : ℕ := 4

/-- `col_block = 0 if col < 4 else 1` (0 = left-hand A0, 1 = right-hand). -/
def col_block (col : ℕ) : ℕ := if col < 4 then 0 else 1

/-- `row_block = 0 if row < 3 else 1` (0 = top A0, 1 = bottom A0). -/
def row_block (row : ℕ) : ℕ := if row < 3 then 0 else 1

/-- `a0_idx = row_block * 2 + col_block`: index of the target A0 page. -/
def a0_idx (row col : ℕ) : ℕ := row_block row * 2 + col_block col

/-- `crop_left = col > 0`: don't crop the left edge of leftmost tiles. -/
def crop_left (col : ℕ) : Bool := decide (0 < col)

/-- `crop_right = col < COLS - 1`: don't crop the right edge of rightmost tiles. -/
def crop_right (col : ℕ) : Bool := decide (col < COLS - 1)

/-- `crop_top = row > 0`: don't crop the top edge of topmost tiles. -/
def crop_top (row : ℕ) : Bool := decide (0 < row)

/-- `crop_bottom = row < ROWS - 1`: don't crop the bottom edge of bottommost tiles. -/
def crop_bottom (row : ℕ) : Bool := decide (row < ROWS - 1)

/-- `gx = col * tile_w`, then `if col > 0: gx -= 2 * col * crop_pt`. -/
def gx (tile_w : ℚ) (col : ℕ) : ℚ :=
  (col : ℚ) * tile_w - (if 0 < col then 2 * (col : ℚ) * crop_pt else 0)

/-- `gy = (ROWS - 1 - row) * tile_h`, then
`if row < ROWS - 1: gy -= 2 * (ROWS - 1 - row) * crop_pt`. -/
def gy (tile_h : ℚ) (row : ℕ) : ℚ :=
  ((ROWS : ℚ) - 1 - (row : ℚ)) * tile_h -
    (if row < ROWS - 1 then 2 * ((ROWS : ℚ) - 1 - (row : ℚ)) * crop_pt else 0)

/-- `block_x0 = 0 if col_block == 0 else 4 * tile_w - 8 * crop_pt`. -/
def block_x0 (tile_w : ℚ) (col : ℕ) : ℚ :=
  if col_block col = 0 then 0 else 4 * tile_w - 8 * crop_pt

/-- `block_y0 = 3 * tile_h - 6 * crop_pt if row_block == 0 else 0`. -/
def block_y0 (tile_h : ℚ) (row : ℕ) : ℚ :=
  if row_block row = 0 then 3 * tile_h - 6 * crop_pt else 0

/-- `lx = gx - block_x0`, plus `LEFT_BLOCK_MARGIN_X` on the left sheets,
`RIGHT_BLOCK_MARGIN_X` on the right sheets: the `tx` argument of
`Transformation().translate`. -/
def lx (tile_w : ℚ) (col : ℕ) : ℚ :=
  gx tile_w col - block_x0 tile_w col +
    (if col_block col = 0 then LEFT_BLOCK_MARGIN_X tile_w else RIGHT_BLOCK_MARGIN_X)

/-- `ly = gy - block_y0`, plus `TOP_BLOCK_MARGIN_Y` on the top sheets,
`BOTTOM_BLOCK_MARGIN_Y` on the bottom sheets: the `ty` argument of
`Transformation().translate`. -/
def ly (tile_h : ℚ) (row : ℕ) : ℚ :=
  gy tile_h row - block_y0 tile_h row +
    (if row_block row = 0 then TOP_BLOCK_MARGIN_Y tile_h else BOTTOM_BLOCK_MARGIN_Y)

/-- Width of a tile after the media-box crop:
`tile_w` minus `crop_pt` for each of the left/right edges that is cropped. -/
def croppedWidth (tile_w : ℚ) (col : ℕ) : ℚ :=
  tile_w - (if crop_left col then crop_pt else 0) - (if crop_right col then crop_pt else 0)

/-- Height of a tile after the media-box crop. -/
def croppedHeight (tile_h : ℚ) (row : ℕ) : ℚ :=
  tile_h - (if crop_top row then crop_pt else 0) - (if crop_bottom row then crop_pt else 0)

/-- The sheet x-offset at which the cropped tile's lower-left corner is
rendered (the spec's `Placement.translateX`).  The code crops the media box
(moving its lower-left x to `crop_pt` when `crop_left` holds) and then
translates the page *content* by `lx`, so the visible lower-left corner
lands at `lx + crop_pt` when the left edge is cropped, and at `lx` otherwise. -/
def translateX (tile_w : ℚ) (col : ℕ) : ℚ :=
  lx tile_w col + (if crop_left col then crop_pt else 0)

/-- The sheet y-offset at which the cropped tile's lower-left corner is
rendered (the spec's `Placement.translateY`); see `translateX`. -/
def translateY (tile_h : ℚ) (row : ℕ) : ℚ :=
  ly tile_h row + (if crop_bottom row then crop_pt else 0)

/-- The edge-crop rule exactly as the spec's EdgeCropPolicy states it
(block-local coordinates `localRow = row % blockRows`,
`localCol = col % blockCols`, with `blockRows = 3`, `blockCols = 4`),
stated as agreement with the code's decision at `(row, col)`.
This is a spec-worded definition, kept for comparison with the code's
`crop_top`/`crop_bottom`/`crop_left`/`crop_right`. -/
def specEdgeCropAgrees (row col : ℕ) : Prop :=
  crop_top row = decide (0 < row % ROWS_PER_BLOCK) ∧
  crop_bottom row = (decide (row % ROWS_PER_BLOCK < ROWS_PER_BLOCK - 1) && decide (row < ROWS - 1)) ∧
  crop_left col = decide (0 < col % COLS_PER_BLOCK.1) ∧
  crop_right col = (decide (col % COLS_PER_BLOCK.1 < COLS_PER_BLOCK.1 - 1) && decide (col < COLS - 1))

/-- The block footprint formula exactly as the claim states it for the code
instance (`blockCols = 4`, `cropLeft = cropRight = crop_pt`):
`blockCols * tileWidth - (blockCols - 1) * (cropLeft + cropRight)`.
Spec-worded definition, kept for comparison with the code's `effective_width`. -/
def specBlockFootprintW (tile_w : ℚ) : ℚ := 4 * tile_w - 3 * (crop_pt + crop_pt)

/-- The spec's footprint formula for the right-hand (3-column) block with
actual occupancy: `3 * tileWidth - 2 * (cropLeft + cropRight)`.
Spec-worded definition, kept for comparison with the code's margins. -/
def specRightBlockFootprintW (tile_w : ℚ) : ℚ := 3 * tile_w - 2 * (crop_pt + crop_pt)

/-- Nominal A4 width in points (a concrete sample `tile_w`). -/
def nominal_tile_w : ℚ := 210 * MM2PT

/-- Nominal A4 height in points (a concrete sample `tile_h`). -/
def nominal_tile_h : ℚ := 297 * MM2PT

/-- One merge performed by the main loop: the target A0 page index and the
`tx`/`ty` arguments passed to `Transformation().translate`. -/
structure Placement where
  sheet : ℕ
  tx : ℚ
  ty : ℚ
deriving DecidableEq, Repr

/-- The in-place media-box mutation the code performs on a tile, in source
order: left (`lower_left.x += crop_pt`), right (`upper_right.x -= crop_pt`),
bottom (`lower_left.y += crop_pt`), top (`upper_right.y -= crop_pt`),
each guarded by the corresponding edge-crop decision. -/
def cropPage (row col : ℕ) (m : Mediabox) : Mediabox :=
  let m1 := if crop_left col then { m with llx := m.llx + crop_pt } else m
  let m2 := if crop_right col then { m1 with urx := m1.urx - crop_pt } else m1
  let m3 := if crop_bottom row then { m2 with lly := m2.lly + crop_pt } else m2
  if crop_top row then { m3 with ury := m3.ury - crop_pt } else m3

/-- The per-tile placement as a pure function of the configuration and the
linear page index (`row, col = divmod(idx, COLS)`). -/
def placeTile (tile_w tile_h : ℚ) (idx : ℕ) : Placement :=
  { sheet := a0_idx (idx / COLS) (idx % COLS)
    tx := lx tile_w (idx % COLS)
    ty := ly tile_h (idx / COLS) }

/-- The main loop of `a4_to_a0.py` over the given page indices.  The state is
the array of media boxes (`cropped_page = page` aliases the reader's page, so
the crop mutates it in place); each iteration crops the page at `idx` and
emits the merge placement for that tile. -/
def runMain (tile_w tile_h : ℚ) : (ℕ → Mediabox) → List ℕ → (ℕ → Mediabox) × List Placement
  | pages, [] => (pages, [])
  | pages, idx :: rest =>
    let row := idx / COLS
    let col := idx % COLS
    let cropped := cropPage row col (pages idx)
    let r := runMain tile_w tile_h (Function.update pages idx cropped) rest
    (r.1, { sheet := a0_idx row col, tx := lx tile_w col, ty := ly tile_h row } :: r.2)

/-- Placeholder media box for out-of-range accesses (never reached on the
42-page path). -/
def default_box : Mediabox := ⟨0, 0, 0, 0⟩

/-- `main` of `a4_to_a0.py`: aborts unless the reader has exactly 42 pages;
otherwise reads `tile_w`/`tile_h` from page 0's media box, runs the loop over
all 42 pages and, only then, writes the output (modelled as returning the
ordered list of placements). -/
def mainA4 (pages : List Mediabox) : Except String (List Placement) :=
  if pages.length ≠ 42 then
    Except.error "Expected exactly 42 pages laid out 7 x 6."
  else
    let m0 := pages.headD default_box
    Except.ok
      (runMain m0.width m0.height (fun i => pages.getD i default_box) (List.range 42)).2

/-- A concrete 42-page input whose last page deviates from the nominal size
read off page 0: 100 pt wider and 50 pt shorter. -/
def deviant_box : Mediabox := ⟨0, 0, 210 * MM2PT + 100, 297 * MM2PT - 50⟩

/-- 41 nominal A4 pages followed by `deviant_box`. -/
def badPages : List Mediabox :=
  List.replicate 41 (Mediabox.mk 0 0 (210 * MM2PT) (297 * MM2PT)) ++ [deviant_box]

end A4ToA0

namespace ConvertFullA0

/-- `A4_expected_w = 210 * MM2PT` from `convert_full_a0.py`. -/
def A4_expected_w : ℚ := 210 * MM2PT

/-- `A4_expected_h = 297 * MM2PT` from `convert_full_a0.py`. -/
def A4_expected_h : ℚ := 297 * MM2PT

/-- `A0_W_PT = A4_expected_w * 4` (note: 840 mm, not the ISO 841 mm). -/
def A0_W_PT : ℚ := A4_expected_w * 4

/-- `A0_H_PT = A4_expected_h * 4`. -/
def A0_H_PT : ℚ := A4_expected_h * 4

/-- `MARGIN_MM = 10`. -/
def MARGIN_MM : ℚ := 10

/-- `MARGIN_PT = MARGIN_MM * MM2PT`. -/
def MARGIN_PT : ℚ := MARGIN_MM * MM2PT

/-- One page placement of `convert_full_a0.py`: the centering translation. -/
structure CPlacement where
  tx : ℚ
  ty : ℚ
deriving DecidableEq, Repr

/-- The per-page loop of `convert_full_a0.py`: reads each page's media-box
size, aborts if the page is too big to pad with `MARGIN_PT` on both sides,
otherwise centers it (`(A0 - tile) / 2` margins).  Output (the placement
list) is only produced when every page succeeded; the abort message is
abbreviated from the code's f-string. -/
def convertPages : List Mediabox → Except String (List CPlacement)
  | [] => Except.ok []
  | m :: rest =>
    let tile_w := m.width
    let tile_h := m.height
    if A0_W_PT - tile_w < 2 * MARGIN_PT ∨ A0_H_PT - tile_h < 2 * MARGIN_PT then
      Except.error "too big to pad"
    else
      match convertPages rest with
      | Except.error e => Except.error e
      | Except.ok r =>
        Except.ok ({ tx := (A0_W_PT - tile_w) / 2, ty := (A0_H_PT - tile_h) / 2 } :: r)

/-- A concrete page as large as the whole output sheet: too big to pad. -/
def big_box : Mediabox := ⟨0, 0, A0_W_PT, A0_H_PT⟩

end ConvertFullA0

end Crafting

namespace Crafting

namespace A4ToA0

/-- Claim C1, as stated, is false: the code's edge-crop decision ignores the
block-local position.  At `sourceRow = 3, sourceCol = 0` the spec's rule gives
`top` untrimmed (`localRow = 3 % 3 = 0`), but the code trims `top`
(`row > 0`); the spec's rule also gives `bottom` untrimmed at
`sourceRow = 2` (`localRow = 2 = blockRows − 1`), but the code trims it. -/
theorem c1_counterexample : ¬ specEdgeCropAgrees 3 0 := by
  intro h
  have h1 := h.1
  simp [crop_top, ROWS_PER_BLOCK] at h1

/-- Claim C1 (amended): the code's edge-crop decision is purely global —
`top` trimmed iff `sourceRow > 0`, `bottom` trimmed iff
`sourceRow < sourceRows − 1`, `left` trimmed iff `sourceCol > 0`,
`right` trimmed iff `sourceCol < sourceCols − 1` — independent of the
tile's block-local position. -/
theorem c1_amended (row col : ℕ) (_hr : row < ROWS) (_hc : col < COLS) :
    (crop_top row = true ↔ 0 < row) ∧
    (crop_bottom row = true ↔ row < ROWS - 1) ∧
    (crop_left col = true ↔ 0 < col) ∧
    (crop_right col = true ↔ col < COLS - 1) := by
  refine ⟨?_, ?_, ?_, ?_⟩ <;> simp [crop_top, crop_bottom, crop_left, crop_right]

/-- Witness for `c1_amended` at the tile `(sourceRow, sourceCol) = (3, 0)`. -/
theorem c1_amended_witness :
    (crop_top 3 = true ↔ 0 < 3) ∧
    (crop_bottom 3 = true ↔ 3 < ROWS - 1) ∧
    (crop_left 0 = true ↔ 0 < 0) ∧
    (crop_right 0 = true ↔ 0 < COLS - 1) :=
  c1_amended 3 0 (by decide) (by decide)

/-- Claim C5: for every in-range `(sourceRow, sourceCol)` the partitioner
computes `sheetRow = sourceRow / blockRows` and `sheetCol = sourceCol / blockCols`
(integer division), targets linear sheet index `sheetRow * 2 + sheetCol`, and
the number of pre-allocated blank A0 pages equals
`ceil(ROWS / ROWS_PER_BLOCK) * ceil(COLS / blockCols)` with `blockCols = 4`
(namely `2 * 2 = 4`). -/
theorem c5_partitioner (row col : ℕ) (hr : row < ROWS) (hc : col < COLS) :
    row_block row = row / ROWS_PER_BLOCK ∧
    col_block col = col / COLS_PER_BLOCK.1 ∧
    a0_idx row col = (row / ROWS_PER_BLOCK) * 2 + col / COLS_PER_BLOCK.1 ∧
    NUM_A0_PAGES =
      ((ROWS + ROWS_PER_BLOCK - 1) / ROWS_PER_BLOCK) *
        ((COLS + COLS_PER_BLOCK.1 - 1) / COLS_PER_BLOCK.1) := by
  simp only [ROWS, COLS] at hr hc
  interval_cases row <;> interval_cases col <;> decide

/-- Witness for `c5_partitioner` at `(sourceRow, sourceCol) = (4, 5)`:
sheet row 1, sheet col 1, A0 index 3. -/
theorem c5_partitioner_witness :
    row_block 4 = 4 / ROWS_PER_BLOCK ∧
    col_block 5 = 5 / COLS_PER_BLOCK.1 ∧
    a0_idx 4 5 = (4 / ROWS_PER_BLOCK) * 2 + 5 / COLS_PER_BLOCK.1 ∧
    NUM_A0_PAGES =
      ((ROWS + ROWS_PER_BLOCK - 1) / ROWS_PER_BLOCK) *
        ((COLS + COLS_PER_BLOCK.1 - 1) / COLS_PER_BLOCK.1) :=
  c5_partitioner 4 5 (by decide) (by decide)

/-- Claim C6 (outer-boundary invariant): a tile in the first source row never
has its top trimmed; in the last source row, never its bottom; in the first
source column, never its left; in the last source column, never its right. -/
theorem c6_outer_boundary (row col : ℕ) (hr : row < ROWS) (hc : col < COLS) :
    (row = 0 → crop_top row = false) ∧
    (row = ROWS - 1 → crop_bottom row = false) ∧
    (col = 0 → crop_left col = false) ∧
    (col = COLS - 1 → crop_right col = false) := by
  simp only [ROWS, COLS] at hr hc
  interval_cases row <;> interval_cases col <;> decide

/-- Witness for `c6_outer_boundary` at the corner tile `(0, 0)`. -/
theorem c6_outer_boundary_witness :
    (0 = 0 → crop_top 0 = false) ∧
    ((0 : ℕ) = ROWS - 1 → crop_bottom 0 = false) ∧
    (0 = 0 → crop_left 0 = false) ∧
    ((0 : ℕ) = COLS - 1 → crop_right 0 = false) :=
  c6_outer_boundary 0 0 (by decide) (by decide)

/-- Claim C10: for every page index `idx < 42`, the computed A0 sheet index
`a0_idx (idx / 7) (idx % 7)` is below `NUM_A0_PAGES = 4`, so
`writer.pages[a0_idx]` is always in range. -/
theorem c10_sheet_index_in_range (idx : ℕ) (h : idx < 42) :
    a0_idx (idx / COLS) (idx % COLS) < NUM_A0_PAGES := by
  interval_cases idx <;> decide

/-- Witness for `c10_sheet_index_in_range` at the last page, `idx = 41`. -/
theorem c10_sheet_index_in_range_witness :
    a0_idx (41 / COLS) (41 % COLS) < NUM_A0_PAGES :=
  c10_sheet_index_in_range 41 (by decide)

end A4ToA0

end Crafting

namespace Crafting

namespace A4ToA0

/-- Claim C2 (seam continuity): for two horizontally adjacent tiles placed on
the same A0 sheet, the right tile's rendered lower-left x-offset equals the
left tile's offset plus the left tile's cropped width, so the tiles butt with
no gap and no overlap; symmetrically, for two vertically adjacent tiles on
the same sheet, the upper tile's y-offset equals the lower tile's offset plus
the lower tile's cropped height (rows count downward, sheet y counts upward). -/
theorem c2_seam_continuity (tile_w tile_h : ℚ) :
    (∀ row col : ℕ, row < ROWS → col + 1 < COLS →
      a0_idx row col = a0_idx row (col + 1) →
      translateX tile_w (col + 1) = translateX tile_w col + croppedWidth tile_w col) ∧
    (∀ row col : ℕ, row + 1 < ROWS → col < COLS →
      a0_idx row col = a0_idx (row + 1) col →
      translateY tile_h row = translateY tile_h (row + 1) + croppedHeight tile_h (row + 1)) := by
  constructor
  · intro row col hr hc hsheet
    simp only [COLS] at hc
    have hc6 : col < 6 := by omega
    interval_cases col
    · simp only [translateX, lx, gx, block_x0, col_block, crop_left, crop_right,
        croppedWidth, LEFT_BLOCK_MARGIN_X, RIGHT_BLOCK_MARGIN_X, effective_width,
        COLS_PER_BLOCK, COLS]
      norm_num
      ring
    · simp only [translateX, lx, gx, block_x0, col_block, crop_left, crop_right,
        croppedWidth, LEFT_BLOCK_MARGIN_X, RIGHT_BLOCK_MARGIN_X, effective_width,
        COLS_PER_BLOCK, COLS]
      norm_num
      ring
    · simp only [translateX, lx, gx, block_x0, col_block, crop_left, crop_right,
        croppedWidth, LEFT_BLOCK_MARGIN_X, RIGHT_BLOCK_MARGIN_X, effective_width,
        COLS_PER_BLOCK, COLS]
      norm_num
      ring
    · simp only [a0_idx, col_block] at hsheet
      norm_num at hsheet
    · simp only [translateX, lx, gx, block_x0, col_block, crop_left, crop_right,
        croppedWidth, LEFT_BLOCK_MARGIN_X, RIGHT_BLOCK_MARGIN_X, effective_width,
        COLS_PER_BLOCK, COLS]
      norm_num
      ring
    · simp only [translateX, lx, gx, block_x0, col_block, crop_left, crop_right,
        croppedWidth, LEFT_BLOCK_MARGIN_X, RIGHT_BLOCK_MARGIN_X, effective_width,
        COLS_PER_BLOCK, COLS]
      norm_num
      ring
  · intro row col hr hc hsheet
    simp only [ROWS] at hr
    have hr5 : row < 5 := by omega
    interval_cases row
    · simp only [translateY, ly, gy, block_y0, row_block, crop_top, crop_bottom,
        croppedHeight, TOP_BLOCK_MARGIN_Y, BOTTOM_BLOCK_MARGIN_Y, effective_height,
        ROWS_PER_BLOCK, ROWS]
      norm_num
      ring
    · simp only [translateY, ly, gy, block_y0, row_block, crop_top, crop_bottom,
        croppedHeight, TOP_BLOCK_MARGIN_Y, BOTTOM_BLOCK_MARGIN_Y, effective_height,
        ROWS_PER_BLOCK, ROWS]
      norm_num
      ring
    · simp only [a0_idx, row_block] at hsheet
      norm_num at hsheet
    · simp only [translateY, ly, gy, block_y0, row_block, crop_top, crop_bottom,
        croppedHeight, TOP_BLOCK_MARGIN_Y, BOTTOM_BLOCK_MARGIN_Y, effective_height,
        ROWS_PER_BLOCK, ROWS]
      norm_num
      ring
    · simp only [translateY, ly, gy, block_y0, row_block, crop_top, crop_bottom,
        croppedHeight, TOP_BLOCK_MARGIN_Y, BOTTOM_BLOCK_MARGIN_Y, effective_height,
        ROWS_PER_BLOCK, ROWS]
      norm_num
      ring

/-- Witness for `c2_seam_continuity`: the tiles `(0,0)` and `(0,1)` share the
top-left A0 sheet and butt horizontally (nominal A4 tile size). -/
theorem c2_seam_continuity_witness :
    translateX nominal_tile_w (0 + 1) =
      translateX nominal_tile_w 0 + croppedWidth nominal_tile_w 0 :=
  (c2_seam_continuity nominal_tile_w nominal_tile_h).1 0 0 (by decide) (by decide) (by decide)

/-- Claim C4, as stated, is false: at the nominal A4 tile width the code's
left-block footprint `effective_width = 4 * tile_w - 3 * crop_pt` differs
from the claimed `blockCols * tileWidth - (blockCols - 1) * (cropLeft + cropRight)`
(which is `4 * tile_w - 3 * (2 * crop_pt)` when every crop amount is 3.2 mm). -/
theorem c4_counterexample :
    effective_width nominal_tile_w ≠ specBlockFootprintW nominal_tile_w := by
  norm_num [effective_width, specBlockFootprintW, nominal_tile_w, crop_pt, crop_mm,
    MM2PT, COLS_PER_BLOCK]

/-- Claim C4 (amended): the code's aggregate block footprint subtracts one
single crop amount per interior gap, not `cropLeft + cropRight`:
`effective_width = blockCols * tileWidth - (blockCols - 1) * crop_pt` with
`blockCols = 4`, and `effective_height = blockRows * tileHeight -
(blockRows - 1) * crop_pt` with `blockRows = 3`. -/
theorem c4_amended (tile_w tile_h : ℚ) :
    effective_width tile_w = 4 * tile_w - 3 * crop_pt ∧
    effective_height tile_h = 3 * tile_h - 2 * crop_pt := by
  constructor
  · simp only [effective_width, COLS_PER_BLOCK]
    norm_num
  · simp only [effective_height, ROWS_PER_BLOCK]
    norm_num

end A4ToA0

end Crafting

namespace Crafting

/-- Helper: whenever `convert_full_a0.py` succeeds, every page was centered
with at least `MARGIN_PT` on each side. -/
lemma convertPages_ok_margins :
    ∀ (pages : List Mediabox) (placements : List ConvertFullA0.CPlacement),
      ConvertFullA0.convertPages pages = Except.ok placements →
      ∀ p ∈ placements, ConvertFullA0.MARGIN_PT ≤ p.tx ∧ ConvertFullA0.MARGIN_PT ≤ p.ty := by
  intro pages
  induction pages with
  | nil =>
    intro placements h p hp
    simp only [ConvertFullA0.convertPages, Except.ok.injEq] at h
    subst h
    simp at hp
  | cons m rest ih =>
    intro placements h p hp
    simp only [ConvertFullA0.convertPages] at h
    split at h
    · exact absurd h (by simp)
    · rename_i hcond
      push_neg at hcond
      cases hrest : ConvertFullA0.convertPages rest with
      | error e =>
        rw [hrest] at h
        exact absurd h (by simp)
      | ok r =>
        rw [hrest] at h
        simp only [Except.ok.injEq] at h
        subst h
        rcases List.mem_cons.mp hp with hpeq | hpr
        · subst hpeq
          refine ⟨?_, ?_⟩
          · have := hcond.1
            dsimp only
            linarith
          · have := hcond.2
            dsimp only
            linarith
        · exact ih r hrest p hpr

/-- Helper: a page too big to pad makes `convert_full_a0.py` abort. -/
lemma convertPages_too_big (m : Mediabox) (rest : List Mediabox)
    (h : ConvertFullA0.A0_W_PT - m.width < 2 * ConvertFullA0.MARGIN_PT ∨
      ConvertFullA0.A0_H_PT - m.height < 2 * ConvertFullA0.MARGIN_PT) :
    ConvertFullA0.convertPages (m :: rest) = Except.error "too big to pad" := by
  simp only [ConvertFullA0.convertPages]
  rw [if_pos h]

/-- Claim C3, as stated, is false: in `a4_to_a0.py` the right-hand sheets'
horizontal margin is the fixed `padding_pt` (5 mm), not the centering value
`(sheetWidth - blockFootprintWidth) / 2` — shown at the nominal A4 tile width
both for the spec's footprint formula (`3·tw − 2·(cropLeft+cropRight)`) and
for a code-style single-crop-per-gap footprint (`3·tw − 2·crop_pt`).
(No minimum-margin validation exists in `a4_to_a0.py` at all.) -/
theorem c3_counterexample :
    A4ToA0.RIGHT_BLOCK_MARGIN_X ≠
      (A4ToA0.A0_W_PT - A4ToA0.specRightBlockFootprintW A4ToA0.nominal_tile_w) / 2 ∧
    A4ToA0.RIGHT_BLOCK_MARGIN_X ≠
      (A4ToA0.A0_W_PT - (3 * A4ToA0.nominal_tile_w - 2 * A4ToA0.crop_pt)) / 2 := by
  constructor <;>
    norm_num [A4ToA0.RIGHT_BLOCK_MARGIN_X, A4ToA0.A0_W_PT, A4ToA0.specRightBlockFootprintW,
      A4ToA0.nominal_tile_w, A4ToA0.crop_pt, A4ToA0.crop_mm, A4ToA0.padding_pt,
      A4ToA0.padding_mm, MM2PT]

/-- Claim C3 (amended): in `a4_to_a0.py` only the left-hand/top sheets are
centered — `LEFT_BLOCK_MARGIN_X = (A0_W_PT - effective_width) / 2` and
`TOP_BLOCK_MARGIN_Y = (A0_H_PT - effective_height) / 2` — while the
right-hand and bottom margins are the fixed `padding_pt`; no minimum-margin
check exists there.  In `convert_full_a0.py` every successfully processed
page is centered with margins at least `MARGIN_PT`, and a page too big to
pad aborts the run with an error (so no output is produced). -/
theorem c3_margins_amended :
    (∀ tile_w : ℚ,
      A4ToA0.LEFT_BLOCK_MARGIN_X tile_w = (A4ToA0.A0_W_PT - A4ToA0.effective_width tile_w) / 2) ∧
    A4ToA0.RIGHT_BLOCK_MARGIN_X = A4ToA0.padding_pt ∧
    (∀ tile_h : ℚ,
      A4ToA0.TOP_BLOCK_MARGIN_Y tile_h = (A4ToA0.A0_H_PT - A4ToA0.effective_height tile_h) / 2) ∧
    A4ToA0.BOTTOM_BLOCK_MARGIN_Y = A4ToA0.padding_pt ∧
    (∀ (pages : List Mediabox) (placements : List ConvertFullA0.CPlacement),
      ConvertFullA0.convertPages pages = Except.ok placements →
      ∀ p ∈ placements, ConvertFullA0.MARGIN_PT ≤ p.tx ∧ ConvertFullA0.MARGIN_PT ≤ p.ty) ∧
    (∀ (m : Mediabox) (rest : List Mediabox),
      ConvertFullA0.A0_W_PT - m.width < 2 * ConvertFullA0.MARGIN_PT ∨
        ConvertFullA0.A0_H_PT - m.height < 2 * ConvertFullA0.MARGIN_PT →
      ConvertFullA0.convertPages (m :: rest) = Except.error "too big to pad") := by
  refine ⟨?_, rfl, ?_, rfl, convertPages_ok_margins, convertPages_too_big⟩
  · intro tile_w
    simp only [A4ToA0.LEFT_BLOCK_MARGIN_X]
    ring
  · intro tile_h
    simp only [A4ToA0.TOP_BLOCK_MARGIN_Y]
    ring

/-- Witness for `c3_margins_amended`: a page as large as the output sheet
makes `convert_full_a0.py` abort. -/
theorem c3_margins_amended_witness :
    ConvertFullA0.convertPages (ConvertFullA0.big_box :: []) =
      Except.error "too big to pad" :=
  c3_margins_amended.2.2.2.2.2 ConvertFullA0.big_box []
    (Or.inl (by
      norm_num [Mediabox.width, ConvertFullA0.big_box, ConvertFullA0.A0_W_PT,
        ConvertFullA0.A4_expected_w, ConvertFullA0.MARGIN_PT, ConvertFullA0.MARGIN_MM, MM2PT]))

end Crafting

namespace Crafting

namespace A4ToA0

/-- Helper: the placements emitted by the main loop are a pure function of
the configuration and the visited indices — they do not depend on the
mutable page state. -/
lemma runMain_snd (tile_w tile_h : ℚ) (l : List ℕ) :
    ∀ pages : ℕ → Mediabox,
      (runMain tile_w tile_h pages l).2 = l.map (placeTile tile_w tile_h) := by
  induction l with
  | nil => intro pages; rfl
  | cons i rest ih =>
    intro pages
    simp only [runMain, List.map_cons, ih]
    rfl

/-- Helper: the main loop leaves pages it never visits untouched. -/
lemma runMain_fst_not_visited (tile_w tile_h : ℚ) (l : List ℕ) :
    ∀ (pages : ℕ → Mediabox) (idx : ℕ), idx ∉ l →
      (runMain tile_w tile_h pages l).1 idx = pages idx := by
  induction l with
  | nil => intro pages idx _; rfl
  | cons i rest ih =>
    intro pages idx h
    simp only [List.mem_cons, not_or] at h
    simp only [runMain]
    rw [ih _ idx h.2, Function.update_noteq h.1]

/-- Helper: over duplicate-free indices, each visited page's media box is
cropped exactly once, from its original value. -/
lemma runMain_fst_visited (tile_w tile_h : ℚ) (l : List ℕ) :
    ∀ (pages : ℕ → Mediabox) (idx : ℕ), l.Nodup → idx ∈ l →
      (runMain tile_w tile_h pages l).1 idx =
        cropPage (idx / COLS) (idx % COLS) (pages idx) := by
  induction l with
  | nil =>
    intro pages idx _ h
    simp at h
  | cons i rest ih =>
    intro pages idx hnd hmem
    simp only [List.nodup_cons] at hnd
    simp only [runMain]
    rcases List.mem_cons.mp hmem with heq | hmem2
    · subst heq
      rw [runMain_fst_not_visited _ _ _ _ _ hnd.1, Function.update_same]
    · have hne : idx ≠ i := fun hcontr => hnd.1 (hcontr ▸ hmem2)
      rw [ih _ idx hnd.2 hmem2, Function.update_noteq hne]

/-- Claim C9: the per-tile layout pipeline is pure and idempotent — the
emitted placements equal the pure per-index function `placeTile` applied
independently of the mutable page state (so identical inputs always yield
identical `Placement`s), and each page's recorded media box ends up cropped
exactly once from its original value. -/
theorem c9_pipeline_pure (tile_w tile_h : ℚ) (pages : ℕ → Mediabox) :
    (runMain tile_w tile_h pages (List.range 42)).2 =
      (List.range 42).map (placeTile tile_w tile_h) ∧
    ∀ idx, idx < 42 →
      (runMain tile_w tile_h pages (List.range 42)).1 idx =
        cropPage (idx / COLS) (idx % COLS) (pages idx) := by
  refine ⟨runMain_snd tile_w tile_h (List.range 42) pages, fun idx h => ?_⟩
  exact runMain_fst_visited tile_w tile_h (List.range 42) pages idx
    (List.nodup_range 42) (List.mem_range.mpr h)

/-- Witness for `c9_pipeline_pure` on a constant page array, at index 0. -/
theorem c9_pipeline_pure_witness :
    (runMain nominal_tile_w nominal_tile_h (fun _ => default_box) (List.range 42)).1 0 =
      cropPage (0 / COLS) (0 % COLS) ((fun _ => default_box) 0) :=
  (c9_pipeline_pure nominal_tile_w nominal_tile_h (fun _ => default_box)).2 0 (by decide)

/-- Claim C7: if the input page count differs from 42 (= sourceRows ×
sourceCols), `main` aborts with the configuration error and produces no
output; and when output is produced, the page count was 42 and all 42 tiles
were placed first — no partial output exists. -/
theorem c7_no_partial_output :
    (∀ pages : List Mediabox, pages.length ≠ 42 →
      mainA4 pages = Except.error "Expected exactly 42 pages laid out 7 x 6.") ∧
    (∀ (pages : List Mediabox) (placements : List Placement),
      mainA4 pages = Except.ok placements →
      pages.length = 42 ∧ placements.length = 42) := by
  constructor
  · intro pages h
    simp only [mainA4, if_pos h]
  · intro pages placements h
    by_cases hl : pages.length = 42
    · refine ⟨hl, ?_⟩
      have h42 : ¬ pages.length ≠ 42 := by omega
      unfold mainA4 at h
      rw [if_neg h42] at h
      simp only [Except.ok.injEq] at h
      subst h
      rw [runMain_snd]
      simp
    · exfalso
      unfold mainA4 at h
      rw [if_pos hl] at h
      exact absurd h (by simp)

/-- Witness for `c7_no_partial_output`: the empty document aborts. -/
theorem c7_no_partial_output_witness :
    mainA4 [] = Except.error "Expected exactly 42 pages laid out 7 x 6." :=
  c7_no_partial_output.1 [] (by decide)

/-- Claim C8, as stated, is false: `a4_to_a0.py` performs no tile-size
check at all.  `badPages` is a 42-page input whose last page is 100 pt wider
and 50 pt shorter than the nominal size read from page 0 (far beyond any
0.3-unit tolerance, and in an unrecognized mixed direction, which the claim
says must be a fatal configuration error), yet `main` succeeds. -/
theorem c8_counterexample :
    badPages.headD default_box = Mediabox.mk 0 0 (210 * MM2PT) (297 * MM2PT) ∧
    badPages.getD 41 default_box = deviant_box ∧
    deviant_box.width = (Mediabox.mk 0 0 (210 * MM2PT) (297 * MM2PT)).width + 100 ∧
    deviant_box.height = (Mediabox.mk 0 0 (210 * MM2PT) (297 * MM2PT)).height - 50 ∧
    (mainA4 badPages).isOk = true := by
  refine ⟨rfl, rfl, ?_, ?_, rfl⟩
  · norm_num [deviant_box, Mediabox.width]
  · norm_num [deviant_box, Mediabox.height]

/-- Claim C8 (amended): the code performs no tile-size validation.  For any
42-page input, `main` succeeds and its output depends only on the page count
and on page 0's media-box dimensions; every page is placed by pure index
arithmetic, with no flag, no warning, and no error, whatever its size. -/
theorem c8_no_size_check (pages : List Mediabox) (h : pages.length = 42) :
    mainA4 pages =
      Except.ok ((List.range 42).map
        (placeTile (pages.headD default_box).width (pages.headD default_box).height)) := by
  have h42 : ¬ pages.length ≠ 42 := by omega
  unfold mainA4
  rw [if_neg h42]
  exact congrArg Except.ok (runMain_snd _ _ _ _)

/-- Witness for `c8_no_size_check`, applied to the oversized-tile input
`badPages`: the run still succeeds. -/
theorem c8_no_size_check_witness :
    mainA4 badPages =
      Except.ok ((List.range 42).map
        (placeTile (badPages.headD default_box).width (badPages.headD default_box).height)) :=
  c8_no_size_check badPages (by decide)

end A4ToA0

end Crafting
